import Mathlib

/-!
Verification of the flight-data ETL utility (`data.py`).

The program walks a directory tree for JSON files, normalizes each flight
record (`clean_flight_data`), filters records with missing required fields,
and bulk-inserts the rest into a MySQL table (`insert_flights_to_test_table`),
after recreating the table (`create_test_table_if_not_exists`).

The embedding models JSON values, Python string/integer primitives used by
the code (`str.strip`, `datetime.strptime` with format `%Y-%m-%d`, `int`),
the per-record cleaning, the batch-insert filter, a small database state,
the per-file processor with its exception handling, and the recursive
directory walk.
-/

namespace FlightETL

/-- A JSON value as produced by the Python `json.load` call. Floating-point
numbers do not occur in the inputs the claims are about, so numbers are
modelled as integers. -/
inductive JVal where
  | str (s : String)
  | num (n : Int)
  | bool (b : Bool)
  | null
  | arr (xs : List JVal)
  | obj (kvs : List (String × JVal))

/-- Python exceptions distinguished by the except clauses of the code. -/
inductive PyErr where
  | attributeError
  | typeError
  | osError
deriving Repr, DecidableEq

/-- Whitespace characters stripped by `str.strip` (ASCII range). -/
def isPyWhitespace (c : Char) : Bool :=
  c = ' ' || c = '\t' || c = '\n' || c = '\r' || c = '\x0b' || c = '\x0c'

/-- Python `str.strip`: remove leading and trailing whitespace. -/
def pyStrip (s : String) : String :=
  String.mk (((s.toList.dropWhile isPyWhitespace).reverse.dropWhile isPyWhitespace).reverse)

/-- Lookup with default — `d.get(k, default)` on a Python dict — modelled
on an association list. -/
def jget : List (String × JVal) → String → JVal → JVal
  | [], _, d => d
  | (k', v) :: rest, k, d => if k' = k then v else jget rest k d

/-- Applying `.strip()` to a fetched value: succeeds on a string, raises
`AttributeError` on any other Python value. -/
def JVal.stripAsStr : JVal → Except PyErr String
  | .str s => .ok (pyStrip s)
  | _ => .error .attributeError

/-- Fetch-and-strip — `flight.get` with default `""` followed by
`.strip` — the common access pattern in `clean_flight_data`. -/
def stripField (kvs : List (String × JVal)) (k : String) : Except PyErr String :=
  (jget kvs k (.str "")).stripAsStr

/-- Strip-or-null: in `s.strip() or None` the empty string is falsy, so
it becomes `None`. -/
def strOrNone (s : String) : Option String :=
  if s = "" then none else some s

/-- Decimal digit value of an ASCII digit character. -/
def digitVal (c : Char) : Nat := c.toNat - 48

/-- All characters are ASCII decimal digits and the run is nonempty. -/
def allDigits (cs : List Char) : Bool :=
  cs ≠ [] && cs.all Char.isDigit

/-- Numeric value of an all-digit character run. -/
def digitsToNat (cs : List Char) : Nat :=
  cs.foldl (fun acc c => acc * 10 + digitVal c) 0

/-- Split at `-` characters on the character list: the runs between the
separators (an empty input yields one empty run, like the Python `split`). -/
def splitOnDash : List Char → List (List Char)
  | [] => [[]]
  | c :: rest =>
    if c = '-' then [] :: splitOnDash rest
    else
      match splitOnDash rest with
      | [] => [[c]]
      | g :: gs => (c :: g) :: gs

/-- Gregorian leap-year rule used by the Python `datetime` module. -/
def isLeapYear (y : Nat) : Bool :=
  (y % 4 = 0 && y % 100 ≠ 0) || y % 400 = 0

/-- Number of days in a month per the Python `datetime` module. -/
def daysInMonth (y m : Nat) : Nat :=
  if m = 2 then (if isLeapYear y then 29 else 28)
  else if m = 4 || m = 6 || m = 9 || m = 11 then 30
  else 31

/-- Acceptance of `datetime.strptime` with format `%Y-%m-%d`: the CPython
`_strptime` module
matches `%Y` against exactly four digits, `%m` against one or two digits
with value 1–12, `%d` against one or two digits with value 1–31, with
literal `-` separators and no unconverted data remaining; the resulting
`datetime(y, m, d)` additionally requires `1 ≤ y` and the day to exist in
the month. -/
def strptimeYmdOk (s : String) : Bool :=
  match splitOnDash s.toList with
  | [y, m, d] =>
    allDigits y && y.length = 4 &&
    allDigits m && m.length ≤ 2 && 1 ≤ digitsToNat m && digitsToNat m ≤ 12 &&
    allDigits d && d.length ≤ 2 && 1 ≤ digitsToNat d &&
    digitsToNat d ≤ daysInMonth (digitsToNat y) (digitsToNat m) &&
    1 ≤ digitsToNat y
  | _ => false

/-- After the first digit of a Python integer literal: digits with single
underscores allowed only between digits. Accumulates the value. -/
def pyIntDigitsRest (acc : Nat) : List Char → Option Nat
  | [] => some acc
  | '_' :: c :: rest =>
    if c.isDigit then pyIntDigitsRest (acc * 10 + digitVal c) rest else none
  | c :: rest =>
    if c.isDigit then pyIntDigitsRest (acc * 10 + digitVal c) rest else none

/-- Digit run of a Python integer literal: at least one digit, single
underscores permitted between digits. -/
def pyIntDigits : List Char → Option Nat
  | c :: rest => if c.isDigit then pyIntDigitsRest (digitVal c) rest else none
  | [] => none

/-- Python `int` applied to a string: strips surrounding whitespace, then
an optional sign followed by a digit run (underscore separators allowed
between digits); anything else raises `ValueError`, modelled as `none`. -/
def pyIntOfString (s : String) : Option Int :=
  match (pyStrip s).toList with
  | '+' :: rest => (pyIntDigits rest).map Int.ofNat
  | '-' :: rest => (pyIntDigits rest).map (fun n => -(Int.ofNat n))
  | l => (pyIntDigits l).map Int.ofNat

/-- The cleaned record shape produced by `clean_flight_data`. -/
structure Cleaned where
  departure : Option String
  destination : Option String
  flight_type : String
  flight_date : Option String
  flight_code : Option String
  price : Option Int
deriving Repr, DecidableEq

/-- Sentinel price strings mapped to `None` by `clean_flight_data`. -/
def sentinelPrices : List String := ["无价格", "暂无", "NA", "N/A"]

/-- Replacement of a one-character pattern by the empty string
(`str.replace`): every occurrence of the character is removed. -/
def removeChar (ch : Char) (s : String) : String :=
  String.mk (s.toList.filter (fun c => c ≠ ch))

/-- The price-cleaning pipeline of the source: three `replace` calls
removing every `¥`, comma and space character. -/
def priceCleanup (s : String) : String :=
  removeChar ' ' (removeChar ',' (removeChar '¥' s))

/-- The cleaned record built from the five stripped field strings, with the
per-field rules of the source applied. -/
def mkCleaned (depS dstS dateS codeS priceS : String) : Cleaned where
  departure := strOrNone depS
  destination := strOrNone dstS
  flight_type := "国内航班"
  flight_date :=
    if dateS ≠ "" && strptimeYmdOk dateS then some dateS else none
  flight_code := strOrNone codeS
  price :=
    if priceS = "" || sentinelPrices.contains priceS then none
    else pyIntOfString (priceCleanup priceS)

/-- The normalizer `clean_flight_data`: it cleans one raw record. A non-dict
record, or a present non-string value in any of the five accessed fields,
raises `AttributeError` (`.strip()`/`.get` on a non-string/non-dict); the
`try` blocks in the source catch only `ValueError`, so these propagate. -/
def clean_flight_data : JVal → Except PyErr Cleaned
  | .obj kvs => do
    let depS ← stripField kvs "出发地"
    let dstS ← stripField kvs "目的地"
    let dateS ← stripField kvs "航班日期"
    let codeS ← stripField kvs "航班代码"
    let priceS ← stripField kvs "价格"
    pure (mkCleaned depS dstS dateS codeS priceS)
  | _ => .error .attributeError

/-! ## Batch loader (`insert_flights_to_test_table`) and database state -/

/-- One row of the `INSERT` batch: `(departure, destination, flight_type,
flight_date, flight_code, price, source_file)`. The optional fields are
guaranteed non-`none` by the filter but keep their Python-side shape. -/
abbrev InsRow :=
  Option String × Option String × String × Option String × Option String ×
  Option Int × String

/-- The tuple built for one record by the insert comprehension. -/
def rowOf (src : String) (f : Cleaned) : InsRow :=
  (f.departure, f.destination, f.flight_type, f.flight_date, f.flight_code,
   f.price, src)

/-- The filter of the insert comprehension: `flight_code`, `price`,
`departure`, `destination` and `flight_date` must all be non-`None`. -/
def validFlight (f : Cleaned) : Bool :=
  f.flight_code.isSome && f.price.isSome && f.departure.isSome &&
  f.destination.isSome && f.flight_date.isSome

/-- The `data_to_insert` comprehension of `insert_flights_to_test_table`: it
keeps exactly the records passing `validFlight` and turns each into its
insert tuple. -/
def dataToInsert (flights : List Cleaned) (src : String) : List InsRow :=
  (flights.filter validFlight).map (rowOf src)

/-- Database state: the `ticket_info` table (column names, when it exists)
together with committed and uncommitted (pending) rows. -/
structure DB where
  table : Option (List String)
  committed : List InsRow
  pending : List InsRow

/-- The column set of the `CREATE TABLE` statement. -/
def expectedCols : List String :=
  ["id", "departure", "destination", "flight_type", "flight_date",
   "flight_code", "price", "source_file", "created_at"]

/-- Effect of `DROP TABLE IF EXISTS ticket_info`: the table and its rows are gone
whether or not it existed. -/
def dropTableIfExists (db : DB) : DB :=
  { db with table := none, committed := [], pending := [] }

/-- Effect of `CREATE TABLE IF NOT EXISTS ticket_info`: creates the table empty
when absent, leaves it untouched when present. -/
def createTableIfNotExists (cols : List String) (db : DB) : DB :=
  match db.table with
  | none => { db with table := some cols }
  | some _ => db

/-- Commit (`conn.commit`): pending rows become committed. -/
def commitDB (db : DB) : DB :=
  { db with committed := db.committed ++ db.pending, pending := [] }

/-- Rollback (`conn.rollback`): pending rows are discarded. -/
def rollbackDB (db : DB) : DB :=
  { db with pending := [] }

/-- The schema initializer `create_test_table_if_not_exists`: it unconditionally drops
`ticket_info`, recreates it with `expectedCols`, and commits. -/
def create_test_table_if_not_exists (db : DB) : DB :=
  commitDB (createTableIfNotExists expectedCols (dropTableIfExists db))

/-- The batch loader `insert_flights_to_test_table`: it builds
`data_to_insert`; when nonempty, `executemany` stages the rows and
`commit` makes them durable. Returns the new state and the row count. -/
def insert_flights_to_test_table (db : DB) (flights : List Cleaned)
    (src : String) : DB × Nat :=
  let rows := dataToInsert flights src
  if rows.isEmpty then (db, 0)
  else (commitDB { db with pending := db.pending ++ rows }, rows.length)

/-! ## Per-file processor (`process_single_file`) -/

/-- What a file on disk looks like to the processor: unreadable (`open`
raises `OSError`), readable but not valid JSON (`json.load` raises
`JSONDecodeError`), or parsed into a top-level JSON value. -/
inductive PyFile where
  | unreadable
  | invalidJson
  | parsed (data : JVal)

/-- Python truthiness of a JSON-derived value (`if not flight_list`). -/
def pyFalsy : JVal → Bool
  | .str s => s = ""
  | .num n => n = 0
  | .bool b => !b
  | .null => true
  | .arr xs => xs.isEmpty
  | .obj kvs => kvs.isEmpty

/-- Iterating a Python value in a `for`/comprehension: lists yield their
elements, strings their characters, dicts their keys; other values raise
`TypeError`. -/
def pyIter : JVal → Except PyErr (List JVal)
  | .arr xs => .ok xs
  | .str s => .ok (s.toList.map fun c => .str (String.singleton c))
  | .obj kvs => .ok (kvs.map fun kv => .str kv.1)
  | _ => .error .typeError

/-- How one processed file ended. -/
inductive Outcome where
  | badJson
  | noData
  | loaded (n : Nat)
  | rolledBack (e : PyErr)
deriving DecidableEq

/-- The body of the outer `try` of `process_single_file`: open and parse the
file (a `JSONDecodeError` is caught inside and turns into a normal
return), extract the flight list (`data` itself when it is a list,
otherwise `data.get` with key `航班列表` and default `[]`, which raises
`AttributeError` on a
non-dict), return when the list is falsy, else clean every record and
insert the valid ones. -/
def processBody (path : String) (db : DB) (file : PyFile) :
    Except PyErr (DB × Outcome) := do
  match file with
  | .unreadable => throw .osError
  | .invalidJson => pure (db, .badJson)
  | .parsed data => do
    let flightList ←
      match data with
      | .arr xs => pure (JVal.arr xs)
      | .obj kvs => pure (jget kvs "航班列表" (.arr []))
      | _ => throw .attributeError
    if pyFalsy flightList then
      pure (db, .noData)
    else do
      let items ← pyIter flightList
      let cleaned ← items.mapM clean_flight_data
      let (db', n) := insert_flights_to_test_table db cleaned path
      pure (db', .loaded n)

/-- The per-file processor `process_single_file`: the whole body runs under
`try ... except Exception`, which rolls the transaction back and logs
instead of propagating, so the function always returns. -/
def process_single_file (path : String) (db : DB) (file : PyFile) :
    DB × Outcome :=
  match processBody path db file with
  | .ok r => r
  | .error e => (rollbackDB db, .rolledBack e)

/-! ## Directory walker (`process_all_json_files`) -/

mutual
/-- A filesystem entry: a plain file or a directory with its entries. -/
inductive FSEntry where
  | file (name : String)
  | dir (name : String) (children : FSList)
/-- A directory listing. -/
inductive FSList where
  | nil
  | cons (e : FSEntry) (es : FSList)
end

/-- Path join (`os.path.join`) for a relative second component. -/
def pathJoin (a b : String) : String :=
  if a = "" then b else if a.endsWith "/" then a ++ b else a ++ "/" ++ b

/-- The filename test of the walker: the lower-cased name ends with
`.json`. -/
def isJsonName (name : String) : Bool :=
  name.toLower.endsWith ".json"

/-- The file paths the walker hands to `process_single_file` out of one
directory listing: files whose name passes `isJsonName`, joined to the
path of the directory. -/
def jsonFilesAt (path : String) : FSList → List String
  | .nil => []
  | .cons (.file n) es =>
    (if isJsonName n then [pathJoin path n] else []) ++ jsonFilesAt path es
  | .cons (.dir _ _) es => jsonFilesAt path es

mutual
/-- Recursion of `os.walk` over the subdirectories of one listing. -/
def walkList (path : String) : FSList → List String
  | .nil => []
  | .cons e es => walkEntry path e ++ walkList path es
/-- Descent of `os.walk` into one entry: a file contributes nothing here
(it was handled at the level of its directory), a directory yields its own
matching files and then recurses. -/
def walkEntry (path : String) : FSEntry → List String
  | .file _ => []
  | .dir n cs =>
    jsonFilesAt (pathJoin path n) cs ++ walkList (pathJoin path n) cs
end

/-- The walker `process_all_json_files`, as the ordered list of
file paths passed to `process_single_file`: `os.walk` yields the files of
the root first, then walks each subdirectory top-down. -/
def process_all_json_files (root : String) (es : FSList) : List String :=
  jsonFilesAt root es ++ walkList root es

mutual
/-- All files (directory path, file name) anywhere under a listing, at any
nesting depth — the reference collector the walker is compared against. -/
def allFilesList (path : String) : FSList → List (String × String)
  | .nil => []
  | .cons e es => allFilesEntry path e ++ allFilesList path es
/-- All files contributed by one entry. -/
def allFilesEntry (path : String) : FSEntry → List (String × String)
  | .file n => [(path, n)]
  | .dir n cs => allFilesList (pathJoin path n) cs
end

/-- All files under the root, pairing each with its directory path. -/
def allFilesUnder (root : String) (es : FSList) : List (String × String) :=
  allFilesList root es

/-! ## Basic lemmas -/

lemma exceptBind_ok {α β ε : Type} (a : α) (f : α → Except ε β) :
    (Except.ok a >>= f : Except ε β) = f a := rfl

lemma exceptBind_error {α β ε : Type} (e : ε) (f : α → Except ε β) :
    (Except.error e >>= f : Except ε β) = .error e := rfl

/-- Successful runs of `clean_flight_data` on a dict decompose into the
five field strips succeeding and the record being assembled from them. -/
lemma clean_obj_ok (kvs : List (String × JVal)) (c : Cleaned) :
    clean_flight_data (.obj kvs) = .ok c ↔
      ∃ a b d e f, stripField kvs "出发地" = .ok a ∧
        stripField kvs "目的地" = .ok b ∧
        stripField kvs "航班日期" = .ok d ∧
        stripField kvs "航班代码" = .ok e ∧
        stripField kvs "价格" = .ok f ∧
        c = mkCleaned a b d e f := by
  cases h1 : stripField kvs "出发地" <;>
    cases h2 : stripField kvs "目的地" <;>
      cases h3 : stripField kvs "航班日期" <;>
        cases h4 : stripField kvs "航班代码" <;>
          cases h5 : stripField kvs "价格" <;>
            simp [clean_flight_data, h1, h2, h3, h4, h5, exceptBind_ok,
              exceptBind_error, pure, Except.pure, eq_comm]

/-- Stripping a fetched string value yields its `pyStrip`. -/
lemma stripField_of_jget_str {kvs : List (String × JVal)} {k s : String}
    (h : jget kvs k (.str "") = .str s) :
    stripField kvs k = .ok (pyStrip s) := by
  rw [stripField, h]; rfl

/-! ## Specification-side definitions

These restate, in the words of the specification, the field rules the
claims assert; the theorems compare them with the behaviour of the code. -/

/-- Claim-side rule for `departure`, `destination` and `flight_code`:
trim whitespace; empty (or absent, via the `""` default) becomes null. -/
def trimToNull (raw : String) : Option String :=
  if pyStrip raw = "" then none else some (pyStrip raw)

/-- Claim-side rule for `price`: null when the trimmed string is empty, a
sentinel, or not parseable as an integer after removing `¥`, commas and
spaces; otherwise the parsed integer. -/
def priceSpec (raw : String) : Option Int :=
  if pyStrip raw = "" then none
  else if sentinelPrices.contains (pyStrip raw) then none
  else pyIntOfString (priceCleanup (pyStrip raw))

/-- A strict ISO-8601 calendar date `YYYY-MM-DD`: four-digit year,
two-digit month and day, existing calendar date. -/
def isIsoYmd (s : String) : Bool :=
  match splitOnDash s.toList with
  | [y, m, d] =>
    allDigits y && y.length = 4 &&
    allDigits m && m.length = 2 && 1 ≤ digitsToNat m && digitsToNat m ≤ 12 &&
    allDigits d && d.length = 2 && 1 ≤ digitsToNat d &&
    digitsToNat d ≤ daysInMonth (digitsToNat y) (digitsToNat m) &&
    1 ≤ digitsToNat y
  | _ => false

/-- Claim-side rule for `flight_date` as literally stated: the trimmed
input exactly when it is a strict `YYYY-MM-DD` date, otherwise null. -/
def flightDateClaim (raw : String) : Option String :=
  if isIsoYmd (pyStrip raw) then some (pyStrip raw) else none

/-- Amended rule for `flight_date`: the trimmed input exactly when
`strptime` with format `%Y-%m-%d` accepts it (four-digit year, but one-
or two-digit month and day), otherwise null. -/
def flightDateAmended (raw : String) : Option String :=
  if strptimeYmdOk (pyStrip raw) then some (pyStrip raw) else none

/-! ## Claims about the field normalizer -/

/-- Claim C5: every successfully normalized record has `flight_type` equal to
the constant `"国内航班"` ("domestic flight"); the value is never derived
from the input and is never null (its type is not even optional). -/
theorem c5_flight_type_constant (v : JVal) (c : Cleaned)
    (h : clean_flight_data v = .ok c) : c.flight_type = "国内航班" := by
  cases v with
  | obj kvs =>
    rcases (clean_obj_ok kvs c).1 h with ⟨a, b, d, e, f, _, _, _, _, _, hc⟩
    subst hc; rfl
  | str s => simp [clean_flight_data] at h
  | num n => simp [clean_flight_data] at h
  | bool b => simp [clean_flight_data] at h
  | null => simp [clean_flight_data] at h
  | arr xs => simp [clean_flight_data] at h

/-- Witness for C5 at the empty record. -/
theorem c5_flight_type_constant_witness :
    (mkCleaned "" "" "" "" "").flight_type = "国内航班" :=
  c5_flight_type_constant (.obj []) (mkCleaned "" "" "" "" "") rfl

/-- Claim C4: for a record whose `出发地`/`目的地`/`航班代码` fields are the
strings `s1`/`s2`/`s3` (absent fields read as `""`), the normalized
`departure`, `destination` and `flight_code` are the trimmed strings,
with empty trimmed to null. -/
theorem c4_trimmed_string_fields (kvs : List (String × JVal))
    (s1 s2 s3 : String) (c : Cleaned)
    (h1 : jget kvs "出发地" (.str "") = .str s1)
    (h2 : jget kvs "目的地" (.str "") = .str s2)
    (h3 : jget kvs "航班代码" (.str "") = .str s3)
    (h : clean_flight_data (.obj kvs) = .ok c) :
    c.departure = trimToNull s1 ∧ c.destination = trimToNull s2 ∧
      c.flight_code = trimToNull s3 := by
  rcases (clean_obj_ok kvs c).1 h with ⟨a, b, d, e, f, ha, hb, hd, he, hf, hc⟩
  subst hc
  rw [stripField_of_jget_str h1] at ha
  rw [stripField_of_jget_str h2] at hb
  rw [stripField_of_jget_str h3] at he
  cases ha; cases hb; cases he
  refine ⟨?_, ?_, ?_⟩ <;> simp [mkCleaned, strOrNone, trimToNull]

/-- Witness for C4: `出发地` is `" 北京 "`, the other two fields absent. -/
theorem c4_trimmed_string_fields_witness :
    (mkCleaned "北京" "" "" "" "").departure = trimToNull " 北京 " ∧
    (mkCleaned "北京" "" "" "" "").destination = trimToNull "" ∧
    (mkCleaned "北京" "" "" "" "").flight_code = trimToNull "" :=
  c4_trimmed_string_fields [("出发地", .str " 北京 ")] " 北京 " "" ""
    (mkCleaned "北京" "" "" "" "") rfl rfl rfl rfl

/-- Claim C2: for a record whose `价格` field is the string `s` (absent reads
as `""`), the normalized `price` is null when the trimmed string is empty,
a sentinel, or not parseable as a Python integer after removing `¥`,
commas and spaces, and is otherwise the parsed integer — i.e. it equals
`priceSpec s`. -/
theorem c2_price_normalization (kvs : List (String × JVal)) (s : String)
    (c : Cleaned)
    (hs : jget kvs "价格" (.str "") = .str s)
    (h : clean_flight_data (.obj kvs) = .ok c) :
    c.price = priceSpec s := by
  rcases (clean_obj_ok kvs c).1 h with ⟨a, b, d, e, f, ha, hb, hd, he, hf, hc⟩
  subst hc
  rw [stripField_of_jget_str hs] at hf
  cases hf
  by_cases hempty : pyStrip s = "" <;>
    by_cases hsent : sentinelPrices.contains (pyStrip s) = true <;>
      simp [mkCleaned, priceSpec, hempty, hsent]

/-- Witness for C2 at the price string `" ¥1,234 "`. -/
theorem c2_price_normalization_witness :
    (mkCleaned "" "" "" "" "¥1,234").price = priceSpec " ¥1,234 " :=
  c2_price_normalization [("价格", .str " ¥1,234 ")] " ¥1,234 "
    (mkCleaned "" "" "" "" "¥1,234") rfl rfl

/-- Counterexample to claim C3 as stated: on a record whose `航班日期`
field is the string `2024-1-5`, the
code keeps `2024-1-5` (the CPython `%Y-%m-%d` format accepts one-digit
month and day), while the strict `YYYY-MM-DD` rule of the claim demands
null. -/
theorem c3_flight_date_claim_counterexample :
    clean_flight_data (.obj [("航班日期", JVal.str "2024-1-5")]) =
      .ok (mkCleaned "" "" "2024-1-5" "" "") ∧
    (mkCleaned "" "" "2024-1-5" "" "").flight_date = some "2024-1-5" ∧
    flightDateClaim "2024-1-5" = none ∧
    (mkCleaned "" "" "2024-1-5" "" "").flight_date ≠
      flightDateClaim "2024-1-5" :=
  ⟨rfl, rfl, rfl, by decide⟩

/-- Claim C3 as amended: for a record whose `航班日期` field is the string `s`
(absent reads as `""`), the normalized `flight_date` is the trimmed input
exactly when `strptime` with format `%Y-%m-%d` accepts it — four-digit year but one-
or two-digit month and day allowed, valid calendar date — and null
otherwise (including empty and absent inputs). -/
theorem c3_flight_date_amended (kvs : List (String × JVal)) (s : String)
    (c : Cleaned)
    (hs : jget kvs "航班日期" (.str "") = .str s)
    (h : clean_flight_data (.obj kvs) = .ok c) :
    c.flight_date = flightDateAmended s := by
  rcases (clean_obj_ok kvs c).1 h with ⟨a, b, d, e, f, ha, hb, hd, he, hf, hc⟩
  subst hc
  rw [stripField_of_jget_str hs] at hd
  cases hd
  by_cases hempty : pyStrip s = ""
  · have hb : strptimeYmdOk "" = false := rfl
    simp [mkCleaned, flightDateAmended, hempty, hb]
  · simp [mkCleaned, flightDateAmended, hempty]

/-- Witness for the amended C3 at the date string `" 2024-01-05 "`. -/
theorem c3_flight_date_amended_witness :
    (mkCleaned "" "" "2024-01-05" "" "").flight_date =
      flightDateAmended " 2024-01-05 " :=
  c3_flight_date_amended [("航班日期", .str " 2024-01-05 ")] " 2024-01-05 "
    (mkCleaned "" "" "2024-01-05" "" "") rfl rfl

/-! ## Totality of the normalizer (C9) -/

/-- Whether a JSON value is a string. -/
def JVal.isStr : JVal → Bool
  | .str _ => true
  | _ => false

/-- Whether `clean_flight_data` returns a record rather than raising. -/
def cleanSucceeds (v : JVal) : Bool :=
  match clean_flight_data v with
  | .ok _ => true
  | .error _ => false

lemma isStr_iff_exists {v : JVal} : v.isStr = true ↔ ∃ s, v = .str s := by
  cases v <;> simp [JVal.isStr]

/-- When every value of the record is a string, so is any fetched value
(the default itself is the string `""`). -/
lemma jget_isStr (kvs : List (String × JVal)) (k : String)
    (h : ∀ kv ∈ kvs, JVal.isStr kv.2 = true) :
    JVal.isStr (jget kvs k (.str "")) = true := by
  induction kvs with
  | nil => rfl
  | cons kv rest ih =>
    rw [jget]
    by_cases hk : kv.1 = k
    · simpa [hk] using h kv (List.mem_cons_self kv rest)
    · simpa [hk] using ih (fun kv' hkv' => h kv' (List.mem_cons_of_mem kv hkv'))

/-- Claim C9: the normalizer is total precisely under the all-strings
precondition: a dict record whose present values are all strings always
cleans successfully, while the record `{"价格": 500}` — a present
non-string value — raises `AttributeError` (`int` has no `.strip`). -/
theorem c9_totality_needs_string_fields :
    (∀ kvs : List (String × JVal),
      (∀ kv ∈ kvs, JVal.isStr kv.2 = true) →
        cleanSucceeds (.obj kvs) = true) ∧
    clean_flight_data (.obj [("价格", JVal.num 500)]) =
      .error .attributeError := by
  constructor
  · intro kvs h
    obtain ⟨s1, e1⟩ := isStr_iff_exists.1 (jget_isStr kvs "出发地" h)
    obtain ⟨s2, e2⟩ := isStr_iff_exists.1 (jget_isStr kvs "目的地" h)
    obtain ⟨s3, e3⟩ := isStr_iff_exists.1 (jget_isStr kvs "航班日期" h)
    obtain ⟨s4, e4⟩ := isStr_iff_exists.1 (jget_isStr kvs "航班代码" h)
    obtain ⟨s5, e5⟩ := isStr_iff_exists.1 (jget_isStr kvs "价格" h)
    have hok : clean_flight_data (.obj kvs) =
        .ok (mkCleaned (pyStrip s1) (pyStrip s2) (pyStrip s3) (pyStrip s4)
          (pyStrip s5)) :=
      (clean_obj_ok kvs _).2
        ⟨pyStrip s1, pyStrip s2, pyStrip s3, pyStrip s4, pyStrip s5,
          stripField_of_jget_str e1, stripField_of_jget_str e2,
          stripField_of_jget_str e3, stripField_of_jget_str e4,
          stripField_of_jget_str e5, rfl⟩
    rw [cleanSucceeds, hok]
  · rfl

/-- Witness for the all-strings half of C9 at a concrete one-field record. -/
theorem c9_totality_needs_string_fields_witness :
    cleanSucceeds (.obj [("出发地", JVal.str "北京")]) = true :=
  c9_totality_needs_string_fields.1 [("出发地", JVal.str "北京")]
    (by intro kv hkv; simp at hkv; rw [hkv]; rfl)

/-! ## The batch-insert filter (C1) -/

/-- Two records with the same insert tuple are the same record. -/
lemma rowOf_inj {src : String} {f g : Cleaned}
    (h : rowOf src f = rowOf src g) : f = g := by
  cases f; cases g
  simp only [rowOf, Prod.mk.injEq] at h
  simp_all

/-- The comprehension filter spelled out on the five required fields. -/
lemma validFlight_iff (f : Cleaned) :
    validFlight f = true ↔
      (f.departure ≠ none ∧ f.destination ≠ none ∧ f.flight_date ≠ none ∧
       f.flight_code ≠ none ∧ f.price ≠ none) := by
  simp only [validFlight, Bool.and_eq_true, Option.isSome_iff_ne_none]
  tauto

/-- Claim C1: a cleaned record in the input list of the batch loader has its row
in `data_to_insert` exactly when `departure`, `destination`,
`flight_date`, `flight_code` and `price` are all non-null; a record with
any of the five fields null is never part of the insert batch. -/
theorem c1_inserted_iff_required_fields (flights : List Cleaned)
    (src : String) (f : Cleaned) (hf : f ∈ flights) :
    rowOf src f ∈ dataToInsert flights src ↔
      (f.departure ≠ none ∧ f.destination ≠ none ∧ f.flight_date ≠ none ∧
       f.flight_code ≠ none ∧ f.price ≠ none) := by
  rw [← validFlight_iff]
  unfold dataToInsert
  constructor
  · intro h
    rcases List.mem_map.1 h with ⟨g, hg, hrow⟩
    rcases List.mem_filter.1 hg with ⟨_, hvalid⟩
    rwa [← rowOf_inj hrow]
  · intro hvalid
    exact List.mem_map.2 ⟨f, List.mem_filter.2 ⟨hf, hvalid⟩, rfl⟩

/-- A fully-populated cleaned record for the C1 witness. -/
def sampleCleaned : Cleaned :=
  ⟨some "北京", some "上海", "国内航班", some "2024-01-05", some "MU123",
   some 1234⟩

/-- Witness for C1: the row of the fully-populated record is in the batch. -/
theorem c1_inserted_iff_required_fields_witness :
    rowOf "json/a.json" sampleCleaned ∈
      dataToInsert [sampleCleaned] "json/a.json" :=
  (c1_inserted_iff_required_fields [sampleCleaned] "json/a.json"
      sampleCleaned (List.mem_singleton.2 rfl)).2
    (by simp [sampleCleaned])

/-! ## Schema initializer (C6) -/

/-- Claim C6: the schema initializer is a constant state transformer: for
every prior database state — table absent, or present with any contents —
the call leaves exactly an empty `ticket_info` table with the expected
column set and nothing pending. -/
theorem c6_drop_and_recreate (db : DB) :
    create_test_table_if_not_exists db =
      { table := some expectedCols, committed := [], pending := [] } := rfl

/-! ## Per-file error handling (C8, C10) -/

/-- Claim C8: whenever the body of `process_single_file` raises, the
function catches the exception (it always returns), rolls the transaction
back, and reports the error in its outcome; committed rows and the table
are exactly as before the call. -/
theorem c8_exception_rolled_back_not_propagated (path : String) (db : DB)
    (file : PyFile) (e : PyErr)
    (h : processBody path db file = .error e) :
    process_single_file path db file = (rollbackDB db, .rolledBack e) ∧
    (process_single_file path db file).1.committed = db.committed ∧
    (process_single_file path db file).1.table = db.table := by
  have hres : process_single_file path db file =
      (rollbackDB db, .rolledBack e) := by
    rw [process_single_file, h]
  exact ⟨hres, by rw [hres]; rfl, by rw [hres]; rfl⟩

/-- Witness for C8: an unreadable file raises `OSError` and is rolled
back. -/
theorem c8_exception_rolled_back_not_propagated_witness :
    process_single_file "json/a.json" ⟨some expectedCols, [], []⟩
        .unreadable =
      (rollbackDB ⟨some expectedCols, [], []⟩, .rolledBack .osError) :=
  (c8_exception_rolled_back_not_propagated "json/a.json"
    ⟨some expectedCols, [], []⟩ .unreadable .osError rfl).1

/-- Fetching an absent key returns the default. -/
lemma jget_of_absent (kvs : List (String × JVal)) (k : String) (d : JVal)
    (h : ∀ kv ∈ kvs, kv.1 ≠ k) : jget kvs k d = d := by
  induction kvs with
  | nil => rfl
  | cons kv rest ih =>
    rw [jget]
    have hne : kv.1 ≠ k := h kv (List.mem_cons_self kv rest)
    simp only [hne, if_false]
    exact ih (fun kv' hkv' => h kv' (List.mem_cons_of_mem kv hkv'))

/-- Claim C10: a file that is not valid JSON, or whose parsed contents hold
no flight records — an empty top-level list, or a top-level object with
no `航班列表` key — makes `process_single_file` return normally: the
database is untouched, nothing is inserted, and the outcome is a skip,
not a rollback, so the walker goes on to the next file. -/
theorem c10_no_records_returns_normally (path : String) (db : DB)
    (file : PyFile)
    (h : file = PyFile.invalidJson ∨ file = .parsed (.arr []) ∨
      ∃ kvs, file = .parsed (.obj kvs) ∧ ∀ kv ∈ kvs, kv.1 ≠ "航班列表") :
    (process_single_file path db file).1 = db ∧
    ((process_single_file path db file).2 = .badJson ∨
     (process_single_file path db file).2 = .noData) := by
  rcases h with h | h | ⟨kvs, h, hk⟩ <;> subst h
  · exact ⟨rfl, Or.inl rfl⟩
  · exact ⟨rfl, Or.inr rfl⟩
  · have hget : jget kvs "航班列表" (.arr []) = .arr [] :=
      jget_of_absent kvs "航班列表" (.arr []) hk
    refine ⟨?_, Or.inr ?_⟩ <;>
      simp [process_single_file, processBody, hget, pyFalsy, pure,
        Except.pure, exceptBind_ok]

/-- Witness for C10 at a syntactically invalid JSON file. -/
theorem c10_no_records_returns_normally_witness :
    (process_single_file "json/bad.json" ⟨some expectedCols, [], []⟩
        .invalidJson).1 = ⟨some expectedCols, [], []⟩ ∧
    ((process_single_file "json/bad.json" ⟨some expectedCols, [], []⟩
        .invalidJson).2 = .badJson ∨
     (process_single_file "json/bad.json" ⟨some expectedCols, [], []⟩
        .invalidJson).2 = .noData) :=
  c10_no_records_returns_normally "json/bad.json"
    ⟨some expectedCols, [], []⟩ .invalidJson (Or.inl rfl)

/-! ## Directory walker (C7) -/

/-- The paths the walk processes from one listing are exactly the files
under it, at any depth, whose name passes the `.json` test, joined to
the path of their directory. -/
lemma mem_jsonWalk (path : String) (es : FSList) (p : String) :
    p ∈ jsonFilesAt path es ++ walkList path es ↔
      ∃ d n, (d, n) ∈ allFilesList path es ∧ isJsonName n = true ∧
        p = pathJoin d n := by
  cases es with
  | nil => simp [jsonFilesAt, walkList, allFilesList]
  | cons e es =>
    cases e with
    | file nm =>
      have ih := mem_jsonWalk path es p
      simp only [List.mem_append] at ih
      simp only [jsonFilesAt, walkList, walkEntry, allFilesList,
        allFilesEntry, List.mem_append, List.nil_append, List.cons_append,
        List.mem_cons, Prod.mk.injEq]
      by_cases hj : isJsonName nm = true
      · simp only [hj, if_true, List.mem_singleton]
        constructor
        · rintro ((rfl | hJ) | hW)
          · exact ⟨path, nm, Or.inl ⟨rfl, rfl⟩, hj, rfl⟩
          · rcases ih.1 (Or.inl hJ) with ⟨d, n, hmem, hjn, hp⟩
            exact ⟨d, n, Or.inr hmem, hjn, hp⟩
          · rcases ih.1 (Or.inr hW) with ⟨d, n, hmem, hjn, hp⟩
            exact ⟨d, n, Or.inr hmem, hjn, hp⟩
        · rintro ⟨d, n, (⟨rfl, rfl⟩ | hmem), hjn, hp⟩
          · exact Or.inl (Or.inl hp)
          · rcases ih.2 ⟨d, n, hmem, hjn, hp⟩ with hJ | hW
            · exact Or.inl (Or.inr hJ)
            · exact Or.inr hW
      · simp only [hj, Bool.false_eq_true, if_false, List.not_mem_nil,
          false_or]
        constructor
        · rintro (hJ | hW)
          · rcases ih.1 (Or.inl hJ) with ⟨d, n, hmem, hjn, hp⟩
            exact ⟨d, n, Or.inr hmem, hjn, hp⟩
          · rcases ih.1 (Or.inr hW) with ⟨d, n, hmem, hjn, hp⟩
            exact ⟨d, n, Or.inr hmem, hjn, hp⟩
        · rintro ⟨d, n, (⟨rfl, rfl⟩ | hmem), hjn, hp⟩
          · exact absurd hjn hj
          · exact ih.2 ⟨d, n, hmem, hjn, hp⟩
    | dir nm cs =>
      have ih1 := mem_jsonWalk (pathJoin path nm) cs p
      have ih2 := mem_jsonWalk path es p
      simp only [List.mem_append] at ih1 ih2
      simp only [jsonFilesAt, walkList, walkEntry, allFilesList,
        allFilesEntry, List.mem_append]
      constructor
      · rintro (hJes | (hcs | hWes))
        · rcases ih2.1 (Or.inl hJes) with ⟨d, n, hmem, hjn, hp⟩
          exact ⟨d, n, Or.inr hmem, hjn, hp⟩
        · rcases ih1.1 hcs with ⟨d, n, hmem, hjn, hp⟩
          exact ⟨d, n, Or.inl hmem, hjn, hp⟩
        · rcases ih2.1 (Or.inr hWes) with ⟨d, n, hmem, hjn, hp⟩
          exact ⟨d, n, Or.inr hmem, hjn, hp⟩
      · rintro ⟨d, n, hmem | hmem, hjn, hp⟩
        · exact Or.inr (Or.inl (ih1.2 ⟨d, n, hmem, hjn, hp⟩))
        · rcases ih2.2 ⟨d, n, hmem, hjn, hp⟩ with hJ | hW
          · exact Or.inl hJ
          · exact Or.inr (Or.inr hW)

/-- Claim C7: a path is handed to the per-file pipeline by the walker
exactly when it is a file somewhere under the root — at any nesting
depth — whose name ends in `.json` case-insensitively. -/
theorem c7_walker_processes_exactly_json (root : String) (es : FSList)
    (p : String) :
    p ∈ process_all_json_files root es ↔
      ∃ d n, (d, n) ∈ allFilesUnder root es ∧ isJsonName n = true ∧
        p = pathJoin d n :=
  mem_jsonWalk root es p

end FlightETL
